import Mathlib

/-!
Shallow embedding of `src/packages/mdc-ripple/foundation.js`
(`MDCRippleFoundation`): the activation/deactivation state machine, the
geometry calculator (`layoutInternal_`), the unbounded deactivation timing
estimator (`getUnboundedDeactivationInfo_`) and the bounded deactivation
point computation (`animateBoundedDeactivation_`), together with theorems
checking the natural-language specification against them.

JS numbers are modelled as real numbers; timestamps as naturals where only
ordering matters. Adapter calls are modelled as explicit action lists.
-/

namespace MDCRipple

/-- The DOM event types the foundation registers handlers for
(source: `listenerInfos_`, foundation.js lines 77-83, plus the keys of
`DEACTIVATION_ACTIVATION_PAIRS`, lines 23-29). -/
inductive EventType where
  | mousedown
  | mouseup
  | pointerdown
  | pointerup
  | touchstart
  | touchend
  | keydown
  | keyup
  | focus
  | blur
deriving DecidableEq, Repr, BEq

/-- Source lines 23-29: the fixed deactivation-to-activation pairing table.
A key absent from the JS object literal yields `undefined`, modelled as
`none`. -/
def DEACTIVATION_ACTIVATION_PAIRS : EventType → Option EventType
  | .mouseup => some .mousedown
  | .pointerup => some .pointerdown
  | .touchend => some .touchstart
  | .keyup => some .keydown
  | .blur => some .focus
  | _ => none

/-- The CSS state-marker classes used by the foundation
(`MDCRippleFoundation.cssClasses`; the `constants` module is not under
`src/`, but each class is named verbatim at its use sites in
foundation.js). -/
inductive CssClass where
  | ROOT
  | UNBOUNDED
  | BG_ACTIVE
  | BG_BOUNDED_ACTIVE_FILL
  | FG_UNBOUNDED_ACTIVATION
  | FG_UNBOUNDED_DEACTIVATION
  | FG_BOUNDED_ACTIVE_FILL
deriving DecidableEq, Repr

/-- Observable effects of the foundation on its adapter and its own
animation bookkeeping, in program order.  `cancelBgBounded`,
`cancelFgBounded`, `cancelFgUnbounded` model calls to the stored
cancellation handles (lines 182-184); `clearUnboundedFadeTimer` models
lines 185-188 (observably, the fade timer is disarmed). -/
inductive Action where
  | addClass (c : CssClass)
  | removeClass (c : CssClass)
  | cancelBgBounded
  | cancelFgBounded
  | cancelFgUnbounded
  | clearUnboundedFadeTimer
deriving DecidableEq, Repr

/-- Source lines 106-114: the activation state record.  `activationEvent`
stores the event type of the activating event (`null` modelled as `none`);
`activationStartTime` is a wall-clock stamp (`Date.now()`), modelled as a
natural number. -/
structure ActivationState where
  isActivated : Bool
  wasActivatedByPointer : Bool
  wasElementMadeActive : Bool
  activationStartTime : Nat
  activationEvent : Option EventType
deriving DecidableEq, Repr

/-- Source lines 106-114: `defaultActivationState_()` — the at-rest state. -/
def defaultActivationState_ : ActivationState :=
  { isActivated := false
    wasActivatedByPointer := false
    wasElementMadeActive := false
    activationStartTime := 0
    activationEvent := none }

/-- Source lines 141-153 (the synchronous part of `activate_`).  Returns the
new activation state together with whether a next-frame confirmation
callback was scheduled (line 154).  When already activated the function
returns early (lines 143-145): the state is untouched and nothing is
scheduled.  The in-place field mutation of lines 147-153 leaves
`wasElementMadeActive` as it was, which the `with` update mirrors. -/
def activate_ (st : ActivationState) (e : EventType) (now : Nat) :
    ActivationState × Bool :=
  if st.isActivated then (st, false)
  else
    ({ st with
        isActivated := true
        activationEvent := some e
        wasActivatedByPointer :=
          decide (e = .mousedown) || decide (e = .touchstart) ||
            decide (e = .pointerdown)
        activationStartTime := now }, true)

/-- Source lines 170-193 (`animateActivation_`): the adapter calls made when
an activation is confirmed, in program order — remove the three
deactivation-fill classes, invoke the three cancellation handles, disarm
the fade timer, add `BG_ACTIVE`, and, when the surface is unbounded, add
`FG_UNBOUNDED_ACTIVATION` (lines 196-199). -/
def animateActivationActions (isUnbounded : Bool) : List Action :=
  [Action.removeClass .BG_BOUNDED_ACTIVE_FILL,
   Action.removeClass .FG_UNBOUNDED_DEACTIVATION,
   Action.removeClass .FG_BOUNDED_ACTIVE_FILL,
   Action.cancelBgBounded,
   Action.cancelFgBounded,
   Action.cancelFgUnbounded,
   Action.clearUnboundedFadeTimer,
   Action.addClass .BG_ACTIVE] ++
    (if isUnbounded then [Action.addClass .FG_UNBOUNDED_ACTIVATION] else [])

/-- Source lines 154-167: the body of the `requestAnimationFrame` callback
scheduled by `activate_`, acting on the activation state it captured.
`wasElementMadeActive` is the adapter's `isSurfaceActive()` answer for a
`keydown` activation and `true` for every other kind (line 160).  If the
element was made active, the state keeps the cycle with the flag set and
`animateActivation_` runs; otherwise the state is reset to the default
at-rest instance and no adapter call is made (lines 161-166). -/
def activationFrameStep (st : ActivationState) (e : EventType)
    (isSurfaceActive : Bool) (isUnbounded : Bool) :
    ActivationState × List Action :=
  let wasElementMadeActive := if e = .keydown then isSurfaceActive else true
  if wasElementMadeActive then
    ({ st with wasElementMadeActive := true }, animateActivationActions isUnbounded)
  else
    (defaultActivationState_, [])

/-- Result of `deactivate_`: the activation state after the handler returns,
and the deferred deactivation-visual step (line 221 schedules
`animateDeactivation_(e, state)` with the by-value snapshot taken on line
219), recorded as the event together with the snapshot when scheduled. -/
structure DeactivationResult where
  state : ActivationState
  scheduledUX : Option (EventType × ActivationState)
deriving DecidableEq, Repr

/-- Source line 213: `needsDeactivationUX = actualActivationType ===
expectedActivationType`, where `actualActivationType` is the pairing-table
entry for the event's type (line 207, `undefined` when absent) and
`expectedActivationType` the stored activation event's type (line 208). -/
def needsDeactivationUX_ (st : ActivationState) (e : EventType) : Bool :=
  match DEACTIVATION_ACTIVATION_PAIRS e, st.activationEvent with
  | some actual, some expected => decide (actual = expected)
  | _, _ => false

/-- Source lines 201-226: `deactivate_`.  A deactivation while not activated
is a no-op (lines 204-206).  Otherwise `needsDeactivationUX` holds iff the
pairing table maps the event's type to the stored activation event's type
(lines 207-213); `needsActualDeactivation` equals it unless the cycle was
pointer-activated, in which case only a `mouseup` resets (lines 214-217).
The snapshot for the deferred visual step is taken before the reset
(lines 219-225). -/
def deactivate_ (st : ActivationState) (e : EventType) : DeactivationResult :=
  if st.isActivated = false then ⟨st, none⟩
  else
    let needsDeactivationUX := needsDeactivationUX_ st e
    let needsActualDeactivation : Bool :=
      if st.wasActivatedByPointer then decide (e = .mouseup)
      else needsDeactivationUX
    { state := if needsActualDeactivation then defaultActivationState_ else st
      scheduledUX := if needsDeactivationUX then some (e, st) else none }

/-- Modelled from the spec: the `constants` module is not under `src/`.
`INITIAL_ORIGIN_SCALE` is fixed at 0.6 by the spec ("60% of the larger of
width/height", "initialSize = 0.6 * max(width, height)") and by the source
comment at line 370 ("60% of the largest dimension of the surface"). -/
noncomputable def INITIAL_ORIGIN_SCALE : ℝ := 0.6

/-- Modelled from the spec: the `constants` module is not under `src/`.
`PADDING` is fixed at 10 by the source comment at line 373 ("Diameter of
the surface + 10px") and the spec's "diagonal + fixed padding". -/
noncomputable def PADDING : ℝ := 10

/-- The layout metrics derived on each layout pass (source fields
`initialSize_`, `maxRadius_`, `fgScale_`, `xfDuration_`). -/
structure LayoutMetrics where
  initialSize : ℝ
  maxRadius : ℝ
  fgScale : ℝ
  xfDuration : ℝ

/-- Source lines 364-378: `layoutInternal_`, as a function of the measured
frame.  `maxDim = Math.max(height, width)`;
`surfaceDiameter = sqrt(width² + height²)`;
`initialSize = maxDim * INITIAL_ORIGIN_SCALE`;
`maxRadius = surfaceDiameter + PADDING`;
`fgScale = maxRadius / initialSize`;
`xfDuration = 1000 * sqrt(maxRadius / 1024)`.
Caveat: when `initialSize = 0`, JS float division yields `Infinity` for
`fgScale`, while Lean's real division yields 0; no theorem below relies on
the value of `fgScale` at a zero denominator. -/
noncomputable def layoutInternal_ (width height : ℝ) : LayoutMetrics :=
  let maxDim := max height width
  let surfaceDiameter := Real.sqrt (width ^ 2 + height ^ 2)
  let initialSize := maxDim * INITIAL_ORIGIN_SCALE
  let maxRadius := surfaceDiameter + PADDING
  { initialSize := initialSize
    maxRadius := maxRadius
    fgScale := maxRadius / initialSize
    xfDuration := 1000 * Real.sqrt (maxRadius / 1024) }

/-- Source lines 287-308 (`animateBoundedDeactivation_`): the translate
start/end points.  `interaction` stands for
`getNormalizedEventCoords(e, getWindowPageOffset(), computeBoundingRect())`.
Modelled from the spec: `util.getNormalizedEventCoords` is not under
`src/`; per the spec it yields the point of interaction in surface
coordinates, so it is taken here as a parameter.  For a non-pointer event
the start point is the surface centre (lines 293-298); both points are then
shifted by half the initial size (lines 300-308). -/
noncomputable def animateBoundedDeactivation_ (interaction : ℝ × ℝ)
    (isPointerEvent : Bool) (frameWidth frameHeight initialSize : ℝ) :
    (ℝ × ℝ) × (ℝ × ℝ) :=
  let startPoint := if isPointerEvent then interaction
    else (frameWidth / 2, frameHeight / 2)
  let startPoint :=
    (startPoint.1 - initialSize / 2, startPoint.2 - initialSize / 2)
  let endPoint :=
    (frameWidth / 2 - initialSize / 2, frameHeight / 2 - initialSize / 2)
  (startPoint, endPoint)

/-- Modelled from the spec: the numeric timing constants destructured from
`MDCRippleFoundation.numbers` at source lines 266-270 live in the
`constants` module, which is not under `src/`; the spec names them without
fixing values, so they are carried as parameters. -/
structure RippleNumbers where
  FG_TRANSFORM_DELAY_MS : ℝ
  OPACITY_DURATION_DIVISOR : ℝ
  ACTIVE_OPACITY_DURATION_MS : ℝ
  UNBOUNDED_TRANSFORM_DURATION_MS : ℝ
  MIN_OPACITY_DURATION_MS : ℝ

/-- Source line 279: `approxOpacity = Math.min(msElapsed / ACTIVE_OPACITY_DURATION_MS, 1)`. -/
noncomputable def approxOpacityOf (nums : RippleNumbers) (msElapsed : ℝ) : ℝ :=
  min (msElapsed / nums.ACTIVE_OPACITY_DURATION_MS) 1

/-- The record returned by `getUnboundedDeactivationInfo_` (line 284). -/
structure UnboundedInfo where
  transformDuration : ℝ
  opacityDuration : ℝ
  approxCurScale : ℝ

/-- Source lines 264-285: `getUnboundedDeactivationInfo_`, with
`msElapsed = Date.now() - activationStartTime` taken as the elapsed-time
parameter, and the instance fields `fgScale_`, `xfDuration_` as
parameters. -/
noncomputable def getUnboundedDeactivationInfo_ (nums : RippleNumbers)
    (msElapsed fgScale xfDuration : ℝ) : UnboundedInfo :=
  let approxCurScale :=
    if nums.FG_TRANSFORM_DELAY_MS < msElapsed then
      min ((msElapsed - nums.FG_TRANSFORM_DELAY_MS) / xfDuration) 1 * fgScale
    else 0
  { transformDuration := nums.UNBOUNDED_TRANSFORM_DURATION_MS
    opacityDuration :=
      max nums.MIN_OPACITY_DURATION_MS
        (1000 * approxOpacityOf nums msElapsed / nums.OPACITY_DURATION_DIVISOR)
    approxCurScale := approxCurScale }

/-- The four handler closures of `listeners_` (source lines 84-93), by
role: `activate` and `deactivate` call into the state machine, `focus` and
`blur` only schedule a `BG_ACTIVE` class toggle on the next frame. -/
inductive HandlerKind where
  | activate
  | deactivate
  | focus
  | blur
deriving DecidableEq, Repr

/-- Source lines 77-83 (`listenerInfos_`) flattened by
`addEventListeners_` (lines 132-139): each registered interaction event
type with the `listeners_` key — and hence handler — it is registered
under. -/
def listenerInfos_ : List (EventType × HandlerKind) :=
  [(.touchstart, .activate), (.touchend, .deactivate),
   (.pointerdown, .activate), (.pointerup, .deactivate),
   (.mousedown, .activate), (.mouseup, .deactivate),
   (.keydown, .activate), (.keyup, .deactivate),
   (.focus, .focus), (.blur, .blur)]

/-- The handler registered for a given event type, per `listenerInfos_`. -/
def registeredHandler (e : EventType) : Option HandlerKind :=
  (listenerInfos_.find? (fun p => p.1 == e)).map (fun p => p.2)

/-- Source lines 87-89: the `focus` listener.  The closure never touches
`activationState_`; it only schedules `addClass(BG_ACTIVE)` on the next
frame, so its embedding returns the activation state unchanged together
with the scheduled adapter call. -/
def focusListener (st : ActivationState) : ActivationState × List Action :=
  (st, [Action.addClass .BG_ACTIVE])

/-- Source lines 90-92: the `blur` listener.  As with `focusListener`, the
closure never touches `activationState_`; it only schedules
`removeClass(BG_ACTIVE)` on the next frame. -/
def blurListener (st : ActivationState) : ActivationState × List Action :=
  (st, [Action.removeClass .BG_ACTIVE])

/-- Adapter calls observable during `init` (lines 116-130) and `destroy`
(lines 322-334), at the granularity the support-caching claim needs:
`browserSupportsCssVars` is the capability query made by the `isSupported_`
getter (lines 65-67); listener (de)registration and the scheduled frame
callback are lumped into one action each. -/
inductive AdapterCall where
  | browserSupportsCssVars
  | registerListeners
  | deregisterListeners
  | frameCallback
deriving DecidableEq, Repr, BEq

/-- Source lines 116-130: `init()` first evaluates the `isSupported_`
getter — one `browserSupportsCssVars()` adapter call (lines 65-67) — and
returns early when unsupported; otherwise it registers the listeners and
schedules a frame callback. -/
def initTrace (supports : Bool) : List AdapterCall :=
  AdapterCall.browserSupportsCssVars ::
    (if supports then [AdapterCall.registerListeners, AdapterCall.frameCallback]
     else [])

/-- Source lines 322-334: `destroy()` likewise evaluates `isSupported_`
again — a fresh `browserSupportsCssVars()` adapter call — and returns early
when unsupported; otherwise it deregisters the listeners and schedules a
frame callback. -/
def destroyTrace (supports : Bool) : List AdapterCall :=
  AdapterCall.browserSupportsCssVars ::
    (if supports then [AdapterCall.deregisterListeners, AdapterCall.frameCallback]
     else [])

/-- Number of `browserSupportsCssVars()` adapter calls in a trace. -/
def supportQueryCount (t : List AdapterCall) : Nat :=
  t.count AdapterCall.browserSupportsCssVars

/-- Effect of the `requestAnimationFrame` callback of lines 154-167 on the
CURRENT `activationState_`, covering staleness: the callback mutates the
state object it captured.  When that object is still current (the cycle it
started is still the active one: activated with the same activation event),
the confirmed branch sets `wasElementMadeActive` on the current state; when
it is stale, the mutation is invisible in the current state.  The
unconfirmed branch reassigns `this.activationState_` to a fresh default
instance unconditionally (line 165). -/
def rafConfirmOutcome (a : ActivationState) (et : EventType)
    (surfaceActive : Bool) : ActivationState :=
  let made := if et = .keydown then surfaceActive else true
  if made then
    (if a.isActivated ∧ a.activationEvent = some et then
      { a with wasElementMadeActive := true }
     else a)
  else defaultActivationState_

/-- The states of the foundation reachable from construction: the current
`activationState_` paired with the pending next-frame confirmation (the
event captured by the callback `activate_` scheduled), closed under the
three operations that touch `activationState_`: the synchronous part of
`activate_`, the confirmation callback firing, and `deactivate_`. -/
inductive Reachable : ActivationState × Option EventType → Prop where
  | init : Reachable (defaultActivationState_, none)
  | activate (e : EventType) (now : Nat) {s : ActivationState × Option EventType} :
      Reachable s →
      Reachable ((activate_ s.1 e now).1,
        if (activate_ s.1 e now).2 then some e else s.2)
  | confirm (surfaceActive : Bool) {a : ActivationState} {et : EventType} :
      Reachable (a, some et) →
      Reachable (rafConfirmOutcome a et surfaceActive, none)
  | deactivate (e : EventType) {s : ActivationState × Option EventType} :
      Reachable s →
      Reachable ((deactivate_ s.1 e).state, s.2)

/-- C8: an activation event received while the state machine is already
activated is a no-op — the whole `ActivationState` is unchanged and no
next-frame confirmation (hence no visuals or deferred callback) is
scheduled. -/
theorem c8_duplicate_activation (st : ActivationState) (e : EventType)
    (now : Nat) (h : st.isActivated = true) :
    activate_ st e now = (st, false) := by
  simp [activate_, h]

theorem c8_duplicate_activation_witness :
    (activate_ defaultActivationState_ EventType.mousedown 5).1.isActivated = true ∧
    activate_ (activate_ defaultActivationState_ EventType.mousedown 5).1
        EventType.pointerdown 9 =
      ((activate_ defaultActivationState_ EventType.mousedown 5).1, false) :=
  ⟨by decide, c8_duplicate_activation _ _ _ (by decide)⟩

/-- C4: the next-frame confirmation step for a keyboard (`keydown`)
activation queries the adapter's surface-active flag; when that flag is
false the activation state is reset to the default at-rest instance in that
frame and no adapter action (in particular no style marker) is performed;
for every non-keyboard activation kind the confirmation is assumed true, so
the cycle is kept (with `wasElementMadeActive` set) and the activation
visuals run. -/
theorem c4_keyboard_confirmation (st : ActivationState) (e : EventType)
    (surfaceActive isUnbounded : Bool) (h : e ≠ EventType.keydown) :
    activationFrameStep st EventType.keydown false isUnbounded =
      (defaultActivationState_, []) ∧
    activationFrameStep st e surfaceActive isUnbounded =
      ({ st with wasElementMadeActive := true },
        animateActivationActions isUnbounded) := by
  constructor
  · simp [activationFrameStep]
  · simp [activationFrameStep, h]

theorem c4_keyboard_confirmation_witness :
    EventType.mousedown ≠ EventType.keydown ∧
    (activationFrameStep defaultActivationState_ EventType.keydown false false =
        (defaultActivationState_, []) ∧
      activationFrameStep defaultActivationState_ EventType.mousedown true false =
        ({ defaultActivationState_ with wasElementMadeActive := true },
          animateActivationActions false)) :=
  ⟨by decide, c4_keyboard_confirmation _ _ _ _ (by decide)⟩

/-- C5 counterexample: the capability query is NOT invoked exactly once per
foundation instance — the `isSupported_` getter re-invokes
`browserSupportsCssVars()` on every access, so an `init` followed by a
`destroy` performs two adapter queries, not one. -/
theorem c5_support_query_counterexample :
    supportQueryCount (initTrace true ++ destroyTrace true) = 2 ∧
    (2 : Nat) ≠ 1 := by
  decide

/-- C5 amended: each lifecycle operation that consults `isSupported_`
(`init` and `destroy`) invokes the adapter's `browserSupportsCssVars()`
exactly once per call; the result is not cached by the foundation, so an
`init` followed by a `destroy` queries the adapter twice. -/
theorem c5_support_query_amended :
    ∀ s t : Bool,
      supportQueryCount (initTrace s) = 1 ∧
      supportQueryCount (destroyTrace s) = 1 ∧
      supportQueryCount (initTrace s ++ destroyTrace t) = 2 := by
  decide

/-- C10: focus and blur never enter the activation state machine.  Every
event type registered to the `deactivate` handler is outside the blur/focus
channel — its pairing-table entry is never `focus` and it is not `blur`, so
the blur↔focus row is never consulted by `deactivate_` — while the `focus`
and `blur` event types are registered to the dedicated listeners, which
leave the activation state unchanged and only schedule the `BG_ACTIVE`
class toggle. -/
theorem c10_focus_blur_independent (e : EventType) (st : ActivationState)
    (h : registeredHandler e = some HandlerKind.deactivate) :
    (DEACTIVATION_ACTIVATION_PAIRS e ≠ some EventType.focus ∧
      e ≠ EventType.blur) ∧
    registeredHandler EventType.focus = some HandlerKind.focus ∧
    registeredHandler EventType.blur = some HandlerKind.blur ∧
    focusListener st = (st, [Action.addClass CssClass.BG_ACTIVE]) ∧
    blurListener st = (st, [Action.removeClass CssClass.BG_ACTIVE]) := by
  refine ⟨?_, by decide, by decide, rfl, rfl⟩
  revert h
  cases e <;> decide

theorem c10_focus_blur_independent_witness :
    registeredHandler EventType.touchend = some HandlerKind.deactivate ∧
    ((DEACTIVATION_ACTIVATION_PAIRS EventType.touchend ≠ some EventType.focus ∧
        EventType.touchend ≠ EventType.blur) ∧
      registeredHandler EventType.focus = some HandlerKind.focus ∧
      registeredHandler EventType.blur = some HandlerKind.blur ∧
      focusListener defaultActivationState_ =
        (defaultActivationState_, [Action.addClass CssClass.BG_ACTIVE]) ∧
      blurListener defaultActivationState_ =
        (defaultActivationState_, [Action.removeClass CssClass.BG_ACTIVE])) :=
  ⟨by decide, c10_focus_blur_independent _ _ (by decide)⟩

/-- C3: for a deactivation event received while a cycle is active, the
deferred deactivation-visual step is scheduled (with the pre-reset
snapshot) iff the pairing table maps the event's kind to the kind of the
stored activation event; and when the cycle was pointer-activated, the
authoritative state reset happens iff the event is a `mouseup`. -/
theorem c3_deactivation_pairing (st : ActivationState) (e : EventType)
    (h : st.isActivated = true) :
    ((deactivate_ st e).scheduledUX = some (e, st) ↔
      (∃ a, DEACTIVATION_ACTIVATION_PAIRS e = some a ∧
        st.activationEvent = some a)) ∧
    (st.wasActivatedByPointer = true →
      ((deactivate_ st e).state = defaultActivationState_ ↔
        e = EventType.mouseup)) := by
  have hne : st ≠ defaultActivationState_ := by
    intro hEq
    rw [hEq] at h
    simp [defaultActivationState_] at h
  constructor
  · rcases hp : DEACTIVATION_ACTIVATION_PAIRS e with _ | a
    · simp [deactivate_, needsDeactivationUX_, h, hp]
    · rcases hae : st.activationEvent with _ | ex
      · simp [deactivate_, needsDeactivationUX_, h, hp, hae]
      · by_cases hx : a = ex
        · subst hx
          simp [deactivate_, needsDeactivationUX_, h, hp, hae]
        · simp [deactivate_, needsDeactivationUX_, h, hp, hae, hx]
          exact fun hh => hx hh.symm
  · intro hptr
    by_cases hm : e = EventType.mouseup
    · subst hm
      simp [deactivate_, h, hptr]
    · simp [deactivate_, h, hptr, hm, hne]

theorem c3_deactivation_pairing_witness :
    (activate_ defaultActivationState_ EventType.touchstart 7).1.isActivated = true ∧
    (((deactivate_ (activate_ defaultActivationState_ EventType.touchstart 7).1
          EventType.touchend).scheduledUX =
        some (EventType.touchend,
          (activate_ defaultActivationState_ EventType.touchstart 7).1) ↔
      (∃ a, DEACTIVATION_ACTIVATION_PAIRS EventType.touchend = some a ∧
        (activate_ defaultActivationState_ EventType.touchstart 7).1.activationEvent =
          some a)) ∧
    ((activate_ defaultActivationState_ EventType.touchstart 7).1.wasActivatedByPointer = true →
      ((deactivate_ (activate_ defaultActivationState_ EventType.touchstart 7).1
          EventType.touchend).state = defaultActivationState_ ↔
        EventType.touchend = EventType.mouseup))) :=
  ⟨by decide, c3_deactivation_pairing _ _ (by decide)⟩

/-- The claimed invariant holds at the default at-rest state. -/
lemma invariantAtDefault :
    (defaultActivationState_.isActivated = true →
      defaultActivationState_.activationEvent ≠ none) ∧
    (defaultActivationState_.isActivated = false →
      defaultActivationState_ = defaultActivationState_) :=
  ⟨fun hAct => by simp [defaultActivationState_] at hAct, fun _ => rfl⟩

/-- The confirmation callback leaves the current state unchanged, sets
`wasElementMadeActive` on a still-current activated cycle, or resets to the
default instance. -/
lemma rafConfirmOutcome_cases (a : ActivationState) (et : EventType)
    (surfaceActive : Bool) :
    rafConfirmOutcome a et surfaceActive = a ∨
    (rafConfirmOutcome a et surfaceActive = { a with wasElementMadeActive := true } ∧
      a.isActivated = true ∧ a.activationEvent = some et) ∨
    rafConfirmOutcome a et surfaceActive = defaultActivationState_ := by
  by_cases hmade : (if et = EventType.keydown then surfaceActive else true) = true
  · by_cases hg : a.isActivated = true ∧ a.activationEvent = some et
    · exact Or.inr (Or.inl ⟨by simp [rafConfirmOutcome, hmade, hg], hg⟩)
    · exact Or.inl (by simp [rafConfirmOutcome, hmade, hg])
  · exact Or.inr (Or.inr (by simp [rafConfirmOutcome, hmade]))

/-- `deactivate_` either keeps the current state or resets it to the
default instance. -/
lemma deactivate_state_cases (st : ActivationState) (e : EventType) :
    (deactivate_ st e).state = st ∨
    (deactivate_ st e).state = defaultActivationState_ := by
  by_cases hA : st.isActivated = false
  · exact Or.inl (by simp [deactivate_, hA])
  · by_cases hP : st.wasActivatedByPointer = true
    · by_cases hm : e = EventType.mouseup
      · exact Or.inr (by simp [deactivate_, hA, hP, hm])
      · exact Or.inl (by simp [deactivate_, hA, hP, hm])
    · cases hu : needsDeactivationUX_ st e
      · exact Or.inl (by simp [deactivate_, hA, hP, hu])
      · exact Or.inr (by simp [deactivate_, hA, hP, hu])

/-- C9: in every reachable configuration of the foundation, the current
activation state has a non-null `activationEvent` whenever `isActivated` is
true, and the fresh default instance is the only at-rest (not-activated)
state; the invariant is preserved by activation, confirmation, deactivation
and reset. -/
theorem c9_activation_invariant (s : ActivationState × Option EventType)
    (h : Reachable s) :
    (s.1.isActivated = true → s.1.activationEvent ≠ none) ∧
    (s.1.isActivated = false → s.1 = defaultActivationState_) := by
  induction h with
  | init => exact invariantAtDefault
  | activate e now hr ih =>
      rename_i s
      by_cases hA : s.1.isActivated = true
      · simpa [activate_, hA] using ih
      · simp only [Bool.not_eq_true] at hA
        refine ⟨fun _ => by simp [activate_, hA], fun hc => ?_⟩
        simp [activate_, hA] at hc
  | confirm surfaceActive hr ih =>
      rename_i a et
      dsimp only
      rcases rafConfirmOutcome_cases a et surfaceActive with hout | ⟨hout, hAct, hEv⟩ | hout
      · rw [hout]
        exact ih
      · rw [hout]
        refine ⟨fun _ => by simp [hEv], fun hc => ?_⟩
        simp [hAct] at hc
      · rw [hout]
        exact invariantAtDefault
  | deactivate e hr ih =>
      rename_i s
      dsimp only
      rcases deactivate_state_cases s.1 e with hout | hout
      · rw [hout]
        exact ih
      · rw [hout]
        exact invariantAtDefault

theorem c9_activation_invariant_witness :
    Reachable (defaultActivationState_, (none : Option EventType)) ∧
    (defaultActivationState_.isActivated = true →
      defaultActivationState_.activationEvent ≠ none) ∧
    (defaultActivationState_.isActivated = false →
      defaultActivationState_ = defaultActivationState_) :=
  ⟨Reachable.init,
   (c9_activation_invariant _ Reachable.init).1,
   (c9_activation_invariant _ Reachable.init).2⟩

/-- C6: the layout pass computes `initialSize = 0.6 * max(width, height)`,
`maxRadius = sqrt(width² + height²) + padding`,
`fgScale = maxRadius / initialSize` and
`xfDuration = 1000 * sqrt(maxRadius / 1024)`, as pure functions of the
frame and the fixed constants (stated under the claim's guard
`initialSize > 0`). -/
theorem c6_layout_metrics (w h : ℝ)
    (hpos : 0 < (layoutInternal_ w h).initialSize) :
    (layoutInternal_ w h).initialSize = 0.6 * max w h ∧
    (layoutInternal_ w h).maxRadius = Real.sqrt (w ^ 2 + h ^ 2) + PADDING ∧
    (layoutInternal_ w h).fgScale =
      (layoutInternal_ w h).maxRadius / (layoutInternal_ w h).initialSize ∧
    (layoutInternal_ w h).xfDuration =
      1000 * Real.sqrt ((layoutInternal_ w h).maxRadius / 1024) := by
  refine ⟨?_, rfl, rfl, rfl⟩
  simp only [layoutInternal_, INITIAL_ORIGIN_SCALE]
  rw [mul_comm, max_comm h w]

theorem c6_layout_metrics_witness :
    0 < (layoutInternal_ 4 3).initialSize ∧
    ((layoutInternal_ 4 3).initialSize = 0.6 * max 4 3 ∧
      (layoutInternal_ 4 3).maxRadius =
        Real.sqrt ((4 : ℝ) ^ 2 + 3 ^ 2) + PADDING ∧
      (layoutInternal_ 4 3).fgScale =
        (layoutInternal_ 4 3).maxRadius / (layoutInternal_ 4 3).initialSize ∧
      (layoutInternal_ 4 3).xfDuration =
        1000 * Real.sqrt ((layoutInternal_ 4 3).maxRadius / 1024)) := by
  have hp : 0 < (layoutInternal_ 4 3).initialSize := by
    simp only [layoutInternal_, INITIAL_ORIGIN_SCALE]
    positivity
  exact ⟨hp, c6_layout_metrics 4 3 hp⟩

/-- C2 counterexample: on the zero-area frame the layout pass does NOT
compute all derived metrics as zero — `maxRadius` is the fixed padding,
10, not 0. -/
theorem c2_zero_frame_counterexample :
    (layoutInternal_ 0 0).maxRadius = 10 ∧ (10 : ℝ) ≠ 0 := by
  constructor
  · simp [layoutInternal_, PADDING]
  · norm_num

/-- C2 amended: on the zero-area frame the layout math is total and yields
`initialSize = 0`, `maxRadius = PADDING = 10` and
`xfDuration = 1000 * sqrt(10 / 1024) > 0` — not all-zero metrics.
(`fgScale` is then a division by the zero `initialSize`, which JS float
semantics evaluates to `Infinity`; its value is not asserted here.) -/
theorem c2_zero_frame_amended :
    (layoutInternal_ 0 0).initialSize = 0 ∧
    (layoutInternal_ 0 0).maxRadius = PADDING ∧
    (layoutInternal_ 0 0).xfDuration = 1000 * Real.sqrt (10 / 1024) ∧
    0 < (layoutInternal_ 0 0).xfDuration := by
  refine ⟨by simp [layoutInternal_], by simp [layoutInternal_, PADDING], ?_, ?_⟩
  · simp [layoutInternal_, PADDING]
  · simp only [layoutInternal_, PADDING]
    positivity

/-- C1 counterexample: for the 100×50 bounded surface the layout pass
computes `initialSize = 0.6 * max(100, 50) = 60`, not the claimed 30. -/
theorem c1_bounded_scenario_counterexample :
    (layoutInternal_ 100 50).initialSize = 60 ∧ (60 : ℝ) ≠ 30 := by
  constructor
  · simp only [layoutInternal_, INITIAL_ORIGIN_SCALE]
    rw [max_eq_right (by norm_num : (50 : ℝ) ≤ 100)]
    norm_num
  · norm_num

/-- C1 amended: for the 100×50 bounded surface, `initialSize = 60` and
`maxRadius = sqrt(12500) + 10 ≈ 121.8`; a mouse-down activates the cycle,
and the mouse-up both schedules the bounded deactivation visuals (with the
pre-reset snapshot) and resets the state; the bounded deactivation for the
interaction point (10,10) uses `startPoint = (10-30, 10-30) = (-20,-20)`
and `endPoint = (50-30, 25-30) = (20,-5)`. -/
theorem c1_bounded_scenario_amended :
    (layoutInternal_ 100 50).initialSize = 60 ∧
    |(layoutInternal_ 100 50).maxRadius - 121.8| < 1 / 100 ∧
    (activate_ defaultActivationState_ EventType.mousedown 0).1.isActivated = true ∧
    (deactivate_ (activate_ defaultActivationState_ EventType.mousedown 0).1
        EventType.mouseup).scheduledUX =
      some (EventType.mouseup,
        (activate_ defaultActivationState_ EventType.mousedown 0).1) ∧
    (deactivate_ (activate_ defaultActivationState_ EventType.mousedown 0).1
        EventType.mouseup).state = defaultActivationState_ ∧
    animateBoundedDeactivation_ (10, 10) true 100 50
        (layoutInternal_ 100 50).initialSize = ((-20, -20), (20, -5)) := by
  have hsize : (layoutInternal_ 100 50).initialSize = 60 := by
    simp only [layoutInternal_, INITIAL_ORIGIN_SCALE]
    rw [max_eq_right (by norm_num : (50 : ℝ) ≤ 100)]
    norm_num
  have hmr : (layoutInternal_ 100 50).maxRadius = Real.sqrt 12500 + 10 := by
    simp only [layoutInternal_, PADDING]
    norm_num
  have h1 : (111.8 : ℝ) < Real.sqrt 12500 := by
    rw [show (111.8 : ℝ) = Real.sqrt (111.8 ^ 2) from
      (Real.sqrt_sq (by norm_num)).symm]
    exact Real.sqrt_lt_sqrt (by positivity) (by norm_num)
  have h2 : Real.sqrt 12500 < 111.81 := by
    rw [show (111.81 : ℝ) = Real.sqrt (111.81 ^ 2) from
      (Real.sqrt_sq (by norm_num)).symm]
    exact Real.sqrt_lt_sqrt (by norm_num) (by norm_num)
  refine ⟨hsize, ?_, by decide, by decide, by decide, ?_⟩
  · rw [hmr, abs_lt]
    constructor <;> nlinarith [h1, h2]
  · rw [hsize]
    simp only [animateBoundedDeactivation_]
    norm_num

/-- C7: in the unbounded deactivation estimator, for fixed `fgScale` and
`xfDuration` and positive timing constants, `approxOpacity` and
`opacityDuration` are monotonically non-decreasing in elapsed time,
`approxOpacity` saturates at 1 once the elapsed time reaches
`ACTIVE_OPACITY_DURATION_MS`, and `opacityDuration` never falls below the
`MIN_OPACITY_DURATION_MS` floor. -/
theorem c7_unbounded_monotone (nums : RippleNumbers)
    (fgScale xfDuration e1 e2 : ℝ)
    (hA : 0 < nums.ACTIVE_OPACITY_DURATION_MS)
    (hD : 0 < nums.OPACITY_DURATION_DIVISOR) (h12 : e1 ≤ e2) :
    approxOpacityOf nums e1 ≤ approxOpacityOf nums e2 ∧
    (getUnboundedDeactivationInfo_ nums e1 fgScale xfDuration).opacityDuration ≤
      (getUnboundedDeactivationInfo_ nums e2 fgScale xfDuration).opacityDuration ∧
    (nums.ACTIVE_OPACITY_DURATION_MS ≤ e1 → approxOpacityOf nums e1 = 1) ∧
    nums.MIN_OPACITY_DURATION_MS ≤
      (getUnboundedDeactivationInfo_ nums e1 fgScale xfDuration).opacityDuration := by
  have hmono : approxOpacityOf nums e1 ≤ approxOpacityOf nums e2 := by
    unfold approxOpacityOf
    exact min_le_min ((div_le_div_iff_of_pos_right hA).mpr h12) le_rfl
  refine ⟨hmono, ?_, ?_, ?_⟩
  · simp only [getUnboundedDeactivationInfo_]
    refine max_le_max le_rfl ?_
    exact (div_le_div_iff_of_pos_right hD).mpr
      (mul_le_mul_of_nonneg_left hmono (by norm_num))
  · intro hsat
    unfold approxOpacityOf
    exact min_eq_right ((one_le_div hA).mpr hsat)
  · simp only [getUnboundedDeactivationInfo_]
    exact le_max_left _ _

theorem c7_unbounded_monotone_witness :
    0 < (RippleNumbers.mk 150 3 110 200 200).ACTIVE_OPACITY_DURATION_MS ∧
    0 < (RippleNumbers.mk 150 3 110 200 200).OPACITY_DURATION_DIVISOR ∧
    (110 : ℝ) ≤ 220 ∧
    (approxOpacityOf (RippleNumbers.mk 150 3 110 200 200) 110 ≤
        approxOpacityOf (RippleNumbers.mk 150 3 110 200 200) 220 ∧
      (getUnboundedDeactivationInfo_ (RippleNumbers.mk 150 3 110 200 200)
          110 2 100).opacityDuration ≤
        (getUnboundedDeactivationInfo_ (RippleNumbers.mk 150 3 110 200 200)
          220 2 100).opacityDuration ∧
      ((RippleNumbers.mk 150 3 110 200 200).ACTIVE_OPACITY_DURATION_MS ≤ 110 →
        approxOpacityOf (RippleNumbers.mk 150 3 110 200 200) 110 = 1) ∧
      (RippleNumbers.mk 150 3 110 200 200).MIN_OPACITY_DURATION_MS ≤
        (getUnboundedDeactivationInfo_ (RippleNumbers.mk 150 3 110 200 200)
          110 2 100).opacityDuration) :=
  ⟨by norm_num, by norm_num, by norm_num,
   c7_unbounded_monotone _ 2 100 110 220 (by norm_num) (by norm_num) (by norm_num)⟩

end MDCRipple
